import Mathlib

/-!
Shallow embedding of the shopping-list generation core of the kitchen-sync
repository, together with proofs settling the frozen claims about it.

Quantities (`real` columns) are modelled as `ℚ`, integer columns as `Int` or
`Nat` (serial ids), nullable columns as `Option`.  The database is a record of
row lists; handlers are state-passing functions returning `Except` for thrown
errors.  Timestamps are not modelled (no claim mentions them).
-/

namespace KitchenSync

/-- Row of `ingredientsTable` (db/schema.ts). -/
structure Ingredient where
  id : Nat
  name : String
  category : Option String
  unit : String
  deriving Repr, DecidableEq

/-- Row of `recipesTable` (db/schema.ts); only the fields the handlers read. -/
structure Recipe where
  id : Nat
  servings : Option Int
  deriving Repr, DecidableEq

/-- Row of `recipeIngredientsTable` (db/schema.ts). -/
structure RecipeIngredient where
  recipe_id : Nat
  ingredient_id : Nat
  quantity : ℚ
  unit : String
  deriving Repr, DecidableEq

/-- Row of `mealPlansTable` (db/schema.ts); only the fields the handlers read. -/
structure MealPlan where
  id : Nat
  name : String
  deriving Repr, DecidableEq

/-- Row of `mealPlanEntriesTable` (db/schema.ts); only the fields the handlers read. -/
structure MealPlanEntry where
  meal_plan_id : Nat
  recipe_id : Nat
  servings : Int
  deriving Repr, DecidableEq

/-- Row of `shoppingListsTable` (db/schema.ts). -/
structure ShoppingList where
  id : Nat
  name : String
  meal_plan_id : Option Nat
  deriving Repr, DecidableEq

/-- Row of `shoppingListItemsTable` (db/schema.ts). -/
structure ShoppingListItem where
  id : Nat
  shopping_list_id : Nat
  ingredient_id : Option Nat
  name : String
  quantity : Option ℚ
  unit : Option String
  category : Option String
  is_purchased : Bool
  notes : Option String
  deriving Repr, DecidableEq

/-- The database state: one list of rows per table, plus serial-id counters for
the two tables the embedded handlers insert into. -/
structure Db where
  ingredients : List Ingredient
  recipes : List Recipe
  recipeIngredients : List RecipeIngredient
  mealPlans : List MealPlan
  mealPlanEntries : List MealPlanEntry
  shoppingLists : List ShoppingList
  shoppingListItems : List ShoppingListItem
  nextListId : Nat
  nextItemId : Nat
  deriving Repr, DecidableEq

/-- Errors thrown by the embedded handlers (`throw new Error(...)` in the
source), plus a store failure for a failing insert. -/
inductive DbError where
  /-- generate_shopping_list_from_meal_plan.ts: `Meal plan with id _ not found`. -/
  | notFound (id : Nat)
  /-- create_shopping_list.ts: `Meal plan with id _ not found or has no entries`. -/
  | notFoundOrEmpty (id : Nat)
  /-- create_shopping_list_item.ts: `Shopping list with id _ not found`. -/
  | listNotFound (id : Nat)
  /-- create_shopping_list_item.ts: `Ingredient with id _ not found`. -/
  | ingredientNotFound (id : Nat)
  /-- A data-layer insert failed (modelled fault of the external store). -/
  | storeFailure
  /-- drizzle-orm throws `No values to set` when `.set({})` receives an empty
  update object; the handler's catch rethrows it. -/
  | noValuesToSet
  deriving Repr, DecidableEq

/-- JavaScript `x || 1` on a nullable integer column: `null` and `0` are falsy.
Used by create_shopping_list.ts line 80 (`item.recipe_servings || 1`). -/
def jsOrOne : Option Int → Int
  | none => 1
  | some v => if v = 0 then 1 else v

/-- Models `Number(q.toFixed(2))` on an exact rational: round to the nearest multiple
of 1/100, ties toward the larger value (create_shopping_list.ts line 102). -/
def round2 (q : ℚ) : ℚ :=
  (round (q * 100) : ℚ) / 100

/-- The string aggregation key of generate_shopping_list_from_meal_plan.ts
line 53: the template literal of the ingredient id and the unit. -/
def mkKey (ingredientId : Nat) (unit : String) : String :=
  toString ingredientId ++ "-" ++ unit

/-! ## generate_shopping_list_from_meal_plan.ts -/

/-- One row of the three-way join of handler lines 34-47 (entries x
recipe_ingredients x ingredients, all inner joins; `recipesTable` is not
joined, so the recipe's own serving count is never read on this path). -/
structure GenRow where
  servings : Int
  ingredient_id : Nat
  quantity : ℚ
  unit : String
  ingredient_name : String
  ingredient_category : Option String
  deriving Repr, DecidableEq

/-- The join of handler lines 34-47 as nested filtered traversal. -/
def genJoinRows (db : Db) (mealPlanId : Nat) : List GenRow :=
  (db.mealPlanEntries.filter (fun e => e.meal_plan_id == mealPlanId)).flatMap fun e =>
    (db.recipeIngredients.filter (fun ri => ri.recipe_id == e.recipe_id)).flatMap fun ri =>
      (db.ingredients.filter (fun ing => ing.id == ri.ingredient_id)).map fun ing =>
        { servings := e.servings, ingredient_id := ri.ingredient_id,
          quantity := ri.quantity, unit := ri.unit,
          ingredient_name := ing.name, ingredient_category := ing.category }

/-- The `AggregatedIngredient` interface of the handler (lines 13-19). -/
structure AggregatedIngredient where
  ingredient_id : Nat
  name : String
  total_quantity : ℚ
  unit : String
  category : Option String
  deriving Repr, DecidableEq

/-- Handler line 54: `parseFloat(entry.quantity.toString()) * entry.servings`.
The entry's scheduled servings are the whole multiplier; the recipe's base
serving count does not appear. -/
def genScaledQuantity (quantity : ℚ) (servings : Int) : ℚ :=
  quantity * (servings : ℚ)

/-- Handler line 58, `existing.total_quantity += scaledQuantity`, applied to
the map entry holding the row's key and leaving every other entry alone. -/
def genBump (r : GenRow) (kv : String × AggregatedIngredient) :
    String × AggregatedIngredient :=
  if kv.1 == mkKey r.ingredient_id r.unit then
    (kv.1, { kv.2 with
             total_quantity := kv.2.total_quantity + genScaledQuantity r.quantity r.servings })
  else kv

/-- One iteration of the aggregation loop (handler lines 52-68) over the
insertion-ordered `Map` of line 50, modelled as an association list with
pairwise-distinct keys. -/
def genStep (m : List (String × AggregatedIngredient)) (r : GenRow) :
    List (String × AggregatedIngredient) :=
  if m.any (fun kv => kv.1 == mkKey r.ingredient_id r.unit) then
    m.map (genBump r)
  else
    m ++ [(mkKey r.ingredient_id r.unit,
           { ingredient_id := r.ingredient_id, name := r.ingredient_name,
             total_quantity := genScaledQuantity r.quantity r.servings, unit := r.unit,
             category := r.ingredient_category })]

/-- The whole aggregation loop of handler lines 50-68. -/
def aggregateGen (rows : List GenRow) : List (String × AggregatedIngredient) :=
  rows.foldl genStep []

/-- Handler lines 83-91: one `ShoppingListItem` per aggregated ingredient, in
map order, with serial ids assigned by the insert. -/
def mkGenItems (listId : Nat) (startId : Nat) :
    List AggregatedIngredient → List ShoppingListItem
  | [] => []
  | a :: rest =>
    { id := startId, shopping_list_id := listId, ingredient_id := some a.ingredient_id,
      name := a.name, quantity := some a.total_quantity, unit := some a.unit,
      category := a.category, is_purchased := false, notes := none } ::
      mkGenItems listId (startId + 1) rest

/-- Which of the two insert statements of the handler the external store
fails; the handler itself wraps them in no transaction and performs no
rollback (its `catch` only logs and rethrows). -/
structure StoreFaults where
  failListInsert : Bool
  failItemsInsert : Bool
  deriving Repr, DecidableEq

/-- No store fault: every insert succeeds. -/
def noFaults : StoreFaults := ⟨false, false⟩

/-- The whole `generateShoppingListFromMealPlan` handler.  Returns the
thrown error or the created list, together with the database state as left
behind — also on a thrown error, since the handler performs no cleanup. -/
def generateShoppingListFromMealPlan (f : StoreFaults) (mealPlanId : Nat)
    (nm : String) (db : Db) : Except DbError ShoppingList × Db :=
  if (db.mealPlans.filter (fun p => p.id == mealPlanId)).length = 0 then
    (Except.error (DbError.notFound mealPlanId), db)
  else
    let agg := aggregateGen (genJoinRows db mealPlanId)
    if f.failListInsert then
      (Except.error DbError.storeFailure, db)
    else
      let sl : ShoppingList :=
        { id := db.nextListId, name := nm, meal_plan_id := some mealPlanId }
      let db1 : Db :=
        { db with shoppingLists := db.shoppingLists ++ [sl],
                  nextListId := db.nextListId + 1 }
      if 0 < agg.length then
        if f.failItemsInsert then
          (Except.error DbError.storeFailure, db1)
        else
          let items := mkGenItems sl.id db1.nextItemId (agg.map Prod.snd)
          (Except.ok sl,
           { db1 with shoppingListItems := db1.shoppingListItems ++ items,
                      nextItemId := db1.nextItemId + items.length })
      else
        (Except.ok sl, db1)

/-! ## create_shopping_list.ts -/

/-- One row of the four-way join of `populateShoppingListFromMealPlan`
(lines 54-69); this path does join `recipesTable` and reads its servings. -/
structure PopRow where
  entry_servings : Int
  recipe_servings : Option Int
  ingredient_id : Nat
  ingredient_name : String
  ingredient_category : Option String
  ingredient_unit : String
  recipe_quantity : ℚ
  recipe_unit : String
  deriving Repr, DecidableEq

/-- The join of create_shopping_list.ts lines 54-69. -/
def popJoinRows (db : Db) (mealPlanId : Nat) : List PopRow :=
  (db.mealPlanEntries.filter (fun e => e.meal_plan_id == mealPlanId)).flatMap fun e =>
    (db.recipes.filter (fun r => r.id == e.recipe_id)).flatMap fun r =>
      (db.recipeIngredients.filter (fun ri => ri.recipe_id == r.id)).flatMap fun ri =>
        (db.ingredients.filter (fun ing => ing.id == ri.ingredient_id)).map fun ing =>
          { entry_servings := e.servings, recipe_servings := r.servings,
            ingredient_id := ri.ingredient_id, ingredient_name := ing.name,
            ingredient_category := ing.category, ingredient_unit := ing.unit,
            recipe_quantity := ri.quantity, recipe_unit := ri.unit }

/-- create_shopping_list.ts line 80:
`item.entry_servings / (item.recipe_servings || 1)`. -/
def servingMultiplier (entryServings : Int) (recipeServings : Option Int) : ℚ :=
  (entryServings : ℚ) / (jsOrOne recipeServings : ℚ)

/-- create_shopping_list.ts line 81:
`item.recipe_quantity * servingMultiplier`. -/
def adjustedQuantity (quantity : ℚ) (entryServings : Int)
    (recipeServings : Option Int) : ℚ :=
  quantity * servingMultiplier entryServings recipeServings

/-- The aggregate value of the `Map` of lines 72-77, keyed by ingredient id
alone. -/
structure PopAgg where
  name : String
  category : Option String
  unit : String
  totalQuantity : ℚ
  deriving Repr, DecidableEq

/-- Line 85, `existing.totalQuantity += adjustedQuantity`, applied to the map
entry holding the row's ingredient id and leaving every other entry alone. -/
def popBump (r : PopRow) (kv : Nat × PopAgg) : Nat × PopAgg :=
  if kv.1 == r.ingredient_id then
    (kv.1, { kv.2 with
             totalQuantity := kv.2.totalQuantity +
               adjustedQuantity r.recipe_quantity r.entry_servings r.recipe_servings })
  else kv

/-- One iteration of the aggregation loop of lines 79-94: the key is the bare
`ingredient_id`, so lines with the same ingredient in different units land in
one group, which keeps the unit of its first line. -/
def popStep (m : List (Nat × PopAgg)) (r : PopRow) : List (Nat × PopAgg) :=
  if m.any (fun kv => kv.1 == r.ingredient_id) then
    m.map (popBump r)
  else
    m ++ [(r.ingredient_id, { name := r.ingredient_name, category := r.ingredient_category,
                              unit := r.recipe_unit,
                              totalQuantity := adjustedQuantity r.recipe_quantity
                                r.entry_servings r.recipe_servings })]

/-- The whole aggregation loop of create_shopping_list.ts lines 79-94. -/
def aggregatePop (rows : List PopRow) : List (Nat × PopAgg) :=
  rows.foldl popStep []

/-- Lines 98-106: one item per group, quantity rounded to two decimals by
`parseFloat(data.totalQuantity.toFixed(2))`. -/
def mkPopItems (listId : Nat) (startId : Nat) :
    List (Nat × PopAgg) → List ShoppingListItem
  | [] => []
  | (ingId, a) :: rest =>
    { id := startId, shopping_list_id := listId, ingredient_id := some ingId,
      name := a.name, quantity := some (round2 a.totalQuantity), unit := some a.unit,
      category := a.category, is_purchased := false, notes := none } ::
      mkPopItems listId (startId + 1) rest

/-- The helper `populateShoppingListFromMealPlan` (create_shopping_list.ts lines 51-116):
computes the aggregation for the plan and inserts the items. -/
def populateShoppingListFromMealPlan (shoppingListId : Nat) (mealPlanId : Nat)
    (db : Db) : Db :=
  let agg := aggregatePop (popJoinRows db mealPlanId)
  if 0 < agg.length then
    let items := mkPopItems shoppingListId db.nextItemId agg
    { db with shoppingListItems := db.shoppingListItems ++ items,
              nextItemId := db.nextItemId + items.length }
  else db

/-- Input type `CreateShoppingListInput` (schema.ts). -/
structure CreateShoppingListInput where
  name : String
  meal_plan_id : Option Nat
  deriving Repr, DecidableEq

/-- JavaScript truthiness of the nullable id in `if (input.meal_plan_id)`:
`null` and `0` are falsy. -/
def jsTruthyId : Option Nat → Bool
  | none => false
  | some v => !(v == 0)

/-- The `createShoppingList` handler (create_shopping_list.ts lines 13-48).  With a truthy
`meal_plan_id` it requires the plan to have at least one entry — an existing
plan with zero entries is rejected with the same `not found or has no entries`
error as a missing plan — and then auto-populates the created list. -/
def createShoppingList (input : CreateShoppingListInput) (db : Db) :
    Except DbError ShoppingList × Db :=
  if jsTruthyId input.meal_plan_id then
    let pid := input.meal_plan_id.getD 0
    let entries := db.mealPlanEntries.filter (fun e => e.meal_plan_id == pid)
    if entries.length = 0 then
      (Except.error (DbError.notFoundOrEmpty pid), db)
    else
      let sl : ShoppingList :=
        { id := db.nextListId, name := input.name, meal_plan_id := input.meal_plan_id }
      let db1 : Db :=
        { db with shoppingLists := db.shoppingLists ++ [sl],
                  nextListId := db.nextListId + 1 }
      (Except.ok sl, populateShoppingListFromMealPlan sl.id pid db1)
  else
    let sl : ShoppingList :=
      { id := db.nextListId, name := input.name, meal_plan_id := input.meal_plan_id }
    (Except.ok sl,
     { db with shoppingLists := db.shoppingLists ++ [sl],
               nextListId := db.nextListId + 1 })

/-! ## create_shopping_list_item.ts (src/unnamed/part_005) -/

/-- Input type `CreateShoppingListItemInput` (schema.ts): no `is_purchased` field. -/
structure CreateShoppingListItemInput where
  shopping_list_id : Nat
  ingredient_id : Option Nat
  name : String
  quantity : Option ℚ
  unit : Option String
  category : Option String
  notes : Option String
  deriving Repr, DecidableEq

/-- The `createShoppingListItem` handler: verifies the list (and, when non-null, the
ingredient) exists, then inserts the row with `is_purchased: false`. -/
def createShoppingListItem (input : CreateShoppingListItemInput) (db : Db) :
    Except DbError ShoppingListItem × Db :=
  if (db.shoppingLists.filter (fun l => l.id == input.shopping_list_id)).length = 0 then
    (Except.error (DbError.listNotFound input.shopping_list_id), db)
  else
    match input.ingredient_id with
    | some ingId =>
      if (db.ingredients.filter (fun ing => ing.id == ingId)).length = 0 then
        (Except.error (DbError.ingredientNotFound ingId), db)
      else
        let item : ShoppingListItem :=
          { id := db.nextItemId, shopping_list_id := input.shopping_list_id,
            ingredient_id := input.ingredient_id, name := input.name,
            quantity := input.quantity, unit := input.unit,
            category := input.category, is_purchased := false, notes := input.notes }
        (Except.ok item,
         { db with shoppingListItems := db.shoppingListItems ++ [item],
                   nextItemId := db.nextItemId + 1 })
    | none =>
      let item : ShoppingListItem :=
        { id := db.nextItemId, shopping_list_id := input.shopping_list_id,
          ingredient_id := input.ingredient_id, name := input.name,
          quantity := input.quantity, unit := input.unit,
          category := input.category, is_purchased := false, notes := input.notes }
      (Except.ok item,
       { db with shoppingListItems := db.shoppingListItems ++ [item],
                 nextItemId := db.nextItemId + 1 })

/-! ## update_shopping_list_item.ts (src/unnamed/part_004) -/

/-- Input type `UpdateShoppingListItemInput` (schema.ts): `id` plus three optional
fields, two of them nullable.  The outer `Option` is field presence
(`!== undefined`), the inner one nullability. -/
structure UpdateShoppingListItemInput where
  id : Nat
  is_purchased : Option Bool
  quantity : Option (Option ℚ)
  notes : Option (Option String)
  deriving Repr, DecidableEq

/-- The dynamic `updateData` object applied to one row: each field present in
the input overwrites the column, absent fields keep the stored value. -/
def applyItemUpdate (input : UpdateShoppingListItemInput)
    (item : ShoppingListItem) : ShoppingListItem :=
  { item with
    is_purchased := input.is_purchased.getD item.is_purchased,
    quantity := input.quantity.getD item.quantity,
    notes := input.notes.getD item.notes }

/-- The effect of the `UPDATE ... WHERE id = input.id` statement on one row:
rows with the requested id get the present fields applied, others are kept. -/
def updItem (input : UpdateShoppingListItemInput) (i : ShoppingListItem) :
    ShoppingListItem :=
  if i.id == input.id then applyItemUpdate input i else i

/-- Whether the dynamically built `updateData` object has at least one key:
exactly the inputs on which drizzle's `.set(updateData)` does not throw
`No values to set`. -/
def hasUpdateValues (input : UpdateShoppingListItemInput) : Bool :=
  input.is_purchased.isSome || input.quantity.isSome || input.notes.isSome

/-- The `updateShoppingListItem` handler, `UPDATE ... WHERE id = input.id RETURNING *`;
returns `null` when no row matched, else the first returned row.  When all
three optional fields are absent the built `updateData` is `{}` and drizzle's
`.set({})` throws `No values to set`, which the catch rethrows with nothing
written. -/
def updateShoppingListItem (input : UpdateShoppingListItemInput) (db : Db) :
    Except DbError (Option ShoppingListItem) × Db :=
  if hasUpdateValues input then
    let items := db.shoppingListItems.map (updItem input)
    let db1 : Db := { db with shoppingListItems := items }
    match items.filter (fun i => i.id == input.id) with
    | [] => (Except.ok none, db1)
    | r :: _ => (Except.ok (some r), db1)
  else
    (Except.error DbError.noValuesToSet, db)

/-! ## Spec-modelled quantities

These definitions transcribe the spec's invariant (spec.md section 3) rather
than the source, for comparison with the code-side aggregation. -/

/-- Modelled from the spec: `effective_base_servings` is "the recipe's
declared serving count when it is a positive integer and 1 otherwise". -/
def effectiveBaseServings : Option Int → Int
  | none => 1
  | some v => if 0 < v then v else 1

/-- The serving count declared by the recipe with the given id, if any. -/
def recipeServingsOf (db : Db) (recipeId : Nat) : Option Int :=
  match db.recipes.find? (fun r => r.id == recipeId) with
  | some r => r.servings
  | none => none

/-- Modelled from the spec: the invariant's prescribed total for one
ingredient+unit pair — the sum over all entries of the plan, and over all of
the entry's recipe's lines declaring that ingredient in that unit, of
`entry.scheduled_servings / effective_base_servings(recipe) * line.quantity`. -/
def specTotalQuantity (db : Db) (planId ingId : Nat) (u : String) : ℚ :=
  ((db.mealPlanEntries.filter (fun e => e.meal_plan_id == planId)).map (fun e =>
    ((db.recipeIngredients.filter (fun ri =>
        ri.recipe_id == e.recipe_id && ri.ingredient_id == ingId && ri.unit == u)).map
      (fun ri => (e.servings : ℚ) /
        (effectiveBaseServings (recipeServingsOf db e.recipe_id) : ℚ) * ri.quantity)).sum)).sum

/-- The key of the join row, as computed in the aggregation loop. -/
def genKeyOf (r : GenRow) : String := mkKey r.ingredient_id r.unit

/-- The scaled contribution of a join row on the generate path. -/
def genScaledOf (r : GenRow) : ℚ := genScaledQuantity r.quantity r.servings

/-- What the generate path actually stores per (ingredient, unit) pair:
the sum of `quantity * servings` over the join rows with that pair. -/
def genTotalFor (rows : List GenRow) (ingId : Nat) (u : String) : ℚ :=
  ((rows.filter (fun r => r.ingredient_id == ingId && r.unit == u)).map genScaledOf).sum

/-- The adjusted contribution of a join row on the populate path. -/
def popAdjustedOf (r : PopRow) : ℚ :=
  adjustedQuantity r.recipe_quantity r.entry_servings r.recipe_servings

/-- What the populate path actually accumulates per ingredient id (over every
unit): the sum of `quantity * entry_servings / (recipe_servings || 1)`. -/
def popTotalFor (rows : List PopRow) (ingId : Nat) : ℚ :=
  ((rows.filter (fun r => r.ingredient_id == ingId)).map popAdjustedOf).sum

/-! ## The aggregation key never collides

`mkKey` concatenates the decimal numeral of the ingredient id, a dash and the
unit; the numeral contains no dash, so the key determines the pair. -/

lemma digitChar_ne_dash (n : Nat) : Nat.digitChar n ≠ '-' := by
  by_cases h : n < 16
  · interval_cases n <;> decide
  · unfold Nat.digitChar
    repeat rw [if_neg (by omega)]
    decide

lemma toDigitsCoreAppend (fuel n : Nat) (acc : List Char) :
    Nat.toDigitsCore 10 fuel n acc = Nat.toDigitsCore 10 fuel n [] ++ acc := by
  induction fuel generalizing n acc with
  | zero => simp [Nat.toDigitsCore]
  | succ fuel ih =>
    simp only [Nat.toDigitsCore]
    split
    · simp
    · rw [ih (n / 10) (Nat.digitChar (n % 10) :: acc),
        ih (n / 10) [Nat.digitChar (n % 10)], List.append_assoc]
      simp

/-- The decimal value of a digit character. -/
def digitVal (c : Char) : Nat := c.toNat - 48

lemma digitVal_digitChar {d : Nat} (h : d < 10) : digitVal (Nat.digitChar d) = d := by
  interval_cases d <;> decide

lemma toDigitsCore_foldl (fuel : Nat) : ∀ n, n < fuel → ∀ a : Nat,
    (Nat.toDigitsCore 10 fuel n []).foldl (fun x c => 10 * x + digitVal c) a
      = a * 10 ^ (Nat.toDigitsCore 10 fuel n []).length + n := by
  induction fuel with
  | zero => intro n hn; omega
  | succ fuel ih =>
    intro n hn a
    simp only [Nat.toDigitsCore]
    split
    · rename_i h0
      simp only [List.foldl_cons, List.foldl_nil, List.length_cons, List.length_nil]
      rw [digitVal_digitChar (show n % 10 < 10 by omega)]
      have hmod : n % 10 = n := by omega
      rw [hmod]
      simp [pow_one]
      omega
    · rename_i h0
      rw [toDigitsCoreAppend]
      have hlt : n / 10 < fuel := by omega
      simp only [List.foldl_append, List.length_append, List.foldl_cons, List.foldl_nil,
        List.length_cons, List.length_nil]
      rw [ih (n / 10) hlt a]
      rw [digitVal_digitChar (show n % 10 < 10 by omega)]
      have hstep : 10 * (a * 10 ^ (Nat.toDigitsCore 10 fuel (n / 10) []).length + n / 10) + n % 10
          = a * 10 ^ ((Nat.toDigitsCore 10 fuel (n / 10) []).length + (0 + 1)) + (10 * (n / 10) + n % 10) := by
        ring
      rw [hstep, Nat.div_add_mod]

lemma natRepr_inj {n m : Nat} (h : Nat.repr n = Nat.repr m) : n = m := by
  have hd : Nat.toDigits 10 n = Nat.toDigits 10 m := by
    have h2 := congrArg String.data h
    simpa [Nat.repr, List.asString] using h2
  have h1 := toDigitsCore_foldl (n + 1) n (Nat.lt_succ_self n) 0
  have h2 := toDigitsCore_foldl (m + 1) m (Nat.lt_succ_self m) 0
  unfold Nat.toDigits at hd
  rw [hd] at h1
  omega

lemma toDigitsCore_ne_dash (fuel : Nat) : ∀ (n : Nat) (ds : List Char),
    (∀ c ∈ ds, c ≠ '-') → ∀ c ∈ Nat.toDigitsCore 10 fuel n ds, c ≠ '-' := by
  induction fuel with
  | zero => intro n ds h c hc; exact h c hc
  | succ fuel ih =>
    intro n ds h c hc
    simp only [Nat.toDigitsCore] at hc
    split at hc
    · rcases List.mem_cons.mp hc with h1 | h1
      · exact h1 ▸ digitChar_ne_dash _
      · exact h c h1
    · refine ih (n / 10) _ ?_ c hc
      intro d hd
      rcases List.mem_cons.mp hd with h1 | h1
      · exact h1 ▸ digitChar_ne_dash _
      · exact h d h1

lemma natRepr_ne_dash (n : Nat) : '-' ∉ (Nat.repr n).data := by
  intro hmem
  have hne : ('-' : Char) ≠ '-' := by
    refine toDigitsCore_ne_dash (n + 1) n [] (by simp) '-' ?_
    simpa [Nat.repr, Nat.toDigits, List.asString] using hmem
  exact hne rfl

lemma append_dash_inj : ∀ (xs ys u v : List Char), '-' ∉ xs → '-' ∉ ys →
    xs ++ '-' :: u = ys ++ '-' :: v → xs = ys ∧ u = v := by
  intro xs
  induction xs with
  | nil =>
    intro ys u v _ hys h
    cases ys with
    | nil => simpa using h
    | cons b bs =>
      simp only [List.nil_append, List.cons_append, List.cons.injEq] at h
      exact absurd (h.1 ▸ List.mem_cons_self b bs) hys
  | cons a as ih =>
    intro ys u v hxs hys h
    cases ys with
    | nil =>
      simp only [List.cons_append, List.nil_append, List.cons.injEq] at h
      exact absurd (h.1 ▸ List.mem_cons_self a as) hxs
    | cons b bs =>
      simp only [List.cons_append, List.cons.injEq] at h
      obtain ⟨rfl, h2⟩ := h
      obtain ⟨h3, h4⟩ := ih bs u v (fun hc => hxs (List.mem_cons_of_mem _ hc))
        (fun hc => hys (List.mem_cons_of_mem _ hc)) h2
      exact ⟨by rw [h3], h4⟩

lemma mkKey_inj {a b : Nat} {u v : String} (h : mkKey a u = mkKey b v) :
    a = b ∧ u = v := by
  have hd : (Nat.repr a).data ++ '-' :: u.data = (Nat.repr b).data ++ '-' :: v.data := by
    have h2 := congrArg String.data h
    simpa [mkKey, toString] using h2
  obtain ⟨h1, h2⟩ := append_dash_inj _ _ _ _ (natRepr_ne_dash a) (natRepr_ne_dash b) hd
  exact ⟨natRepr_inj (String.ext h1), String.ext h2⟩

/-! ## The generate-path aggregation loop computes per-key sums -/

/-- Sum of the stored totals under one key of the aggregation map. -/
def totalInGen (m : List (String × AggregatedIngredient)) (k : String) : ℚ :=
  ((m.filter (fun kv => kv.1 == k)).map (fun kv => kv.2.total_quantity)).sum

/-- Sum of the scaled contributions of the rows carrying one key. -/
def keyTotalGen (rows : List GenRow) (k : String) : ℚ :=
  ((rows.filter (fun r => genKeyOf r == k)).map genScaledOf).sum

lemma filter_key_singleton {κ α : Type} [BEq κ] [LawfulBEq κ]
    (m : List (κ × α)) (kv : κ × α) (hnodup : (m.map Prod.fst).Nodup)
    (hmem : kv ∈ m) : m.filter (fun x => x.1 == kv.1) = [kv] := by
  induction m with
  | nil => cases hmem
  | cons hd tl ih =>
    rw [List.map_cons, List.nodup_cons] at hnodup
    obtain ⟨hhd, htlnodup⟩ := hnodup
    rcases List.mem_cons.mp hmem with rfl | htl
    · have htlnil : tl.filter (fun x => x.1 == kv.1) = [] := by
        refine List.filter_eq_nil_iff.mpr ?_
        intro x hx hbeq
        exact hhd (eq_of_beq hbeq ▸ List.mem_map_of_mem Prod.fst hx)
      rw [List.filter_cons, if_pos (by simp), htlnil]
    · have hne : hd.1 ≠ kv.1 := fun he => hhd (he ▸ List.mem_map_of_mem Prod.fst htl)
      rw [List.filter_cons, if_neg (by simpa using hne)]
      exact ih htlnodup htl

lemma genBump_fst (r : GenRow) (kv : String × AggregatedIngredient) :
    (genBump r kv).1 = kv.1 := by
  by_cases h : kv.1 = mkKey r.ingredient_id r.unit <;> simp [genBump, h]

lemma genBump_fields (r : GenRow) (kv : String × AggregatedIngredient) :
    (genBump r kv).2.ingredient_id = kv.2.ingredient_id ∧
    (genBump r kv).2.unit = kv.2.unit ∧
    (genBump r kv).2.name = kv.2.name ∧
    (genBump r kv).2.category = kv.2.category := by
  by_cases h : kv.1 = mkKey r.ingredient_id r.unit <;> simp [genBump, h]

lemma genBump_of_ne (r : GenRow) (kv : String × AggregatedIngredient)
    (h : kv.1 ≠ mkKey r.ingredient_id r.unit) : genBump r kv = kv := by
  simp [genBump, h]

lemma genBump_total_of_eq (r : GenRow) (kv : String × AggregatedIngredient)
    (h : kv.1 = mkKey r.ingredient_id r.unit) :
    (genBump r kv).2.total_quantity = kv.2.total_quantity + genScaledOf r := by
  simp [genBump, h, genScaledOf]

lemma genStep_fst_any (m : List (String × AggregatedIngredient)) (r : GenRow)
    (h : m.any (fun kv => kv.1 == mkKey r.ingredient_id r.unit)) :
    (genStep m r).map Prod.fst = m.map Prod.fst := by
  simp only [genStep, h, if_true, List.map_map]
  apply List.map_congr_left
  intro kv _
  exact genBump_fst r kv

lemma genStep_fst_new (m : List (String × AggregatedIngredient)) (r : GenRow)
    (h : ¬ m.any (fun kv => kv.1 == mkKey r.ingredient_id r.unit)) :
    (genStep m r).map Prod.fst = m.map Prod.fst ++ [mkKey r.ingredient_id r.unit] := by
  simp only [genStep]
  rw [if_neg (by simpa using h)]
  simp

lemma genStep_nodup (m : List (String × AggregatedIngredient)) (r : GenRow)
    (h : (m.map Prod.fst).Nodup) : ((genStep m r).map Prod.fst).Nodup := by
  by_cases hany : m.any (fun kv => kv.1 == mkKey r.ingredient_id r.unit)
  · rw [genStep_fst_any m r hany]; exact h
  · rw [genStep_fst_new m r hany]
    simp only [List.any_eq_true, not_exists, not_and] at hany
    refine List.Nodup.append h (List.nodup_singleton _) ?_
    intro k hk1 hk2
    simp only [List.mem_singleton] at hk2
    obtain ⟨kv, hkv, rfl⟩ := List.mem_map.mp hk1
    exact absurd (by simpa using hk2) (by simpa using hany kv hkv)

lemma genStep_coherent (m : List (String × AggregatedIngredient)) (r : GenRow)
    (h : ∀ kv ∈ m, mkKey kv.2.ingredient_id kv.2.unit = kv.1) :
    ∀ kv ∈ genStep m r, mkKey kv.2.ingredient_id kv.2.unit = kv.1 := by
  intro kv hkv
  simp only [genStep] at hkv
  split at hkv
  · obtain ⟨kv0, hkv0, heq⟩ := List.mem_map.mp hkv
    obtain ⟨hf1, hf2, _, _⟩ := genBump_fields r kv0
    rw [← heq, hf1, hf2, genBump_fst]
    exact h kv0 hkv0
  · rcases List.mem_append.mp hkv with hin | hin
    · exact h kv hin
    · simp only [List.mem_singleton] at hin
      subst hin
      rfl

lemma genStep_origin (m : List (String × AggregatedIngredient)) (r : GenRow) :
    ∀ kv ∈ genStep m r,
      (∃ kv0 ∈ m, kv0.2.ingredient_id = kv.2.ingredient_id ∧ kv0.2.unit = kv.2.unit ∧
        kv0.2.name = kv.2.name ∧ kv0.2.category = kv.2.category) ∨
      (r.ingredient_id = kv.2.ingredient_id ∧ r.unit = kv.2.unit ∧
        r.ingredient_name = kv.2.name ∧ r.ingredient_category = kv.2.category) := by
  intro kv hkv
  simp only [genStep] at hkv
  split at hkv
  · obtain ⟨kv0, hkv0, heq⟩ := List.mem_map.mp hkv
    obtain ⟨hf1, hf2, hf3, hf4⟩ := genBump_fields r kv0
    exact Or.inl ⟨kv0, hkv0, by rw [← heq, hf1, hf2, hf3, hf4]; exact ⟨rfl, rfl, rfl, rfl⟩⟩
  · rcases List.mem_append.mp hkv with hin | hin
    · exact Or.inl ⟨kv, hin, rfl, rfl, rfl, rfl⟩
    · simp only [List.mem_singleton] at hin
      subst hin
      exact Or.inr ⟨rfl, rfl, rfl, rfl⟩

lemma totalInGen_genStep (m : List (String × AggregatedIngredient)) (r : GenRow)
    (hnodup : (m.map Prod.fst).Nodup) (k : String) :
    totalInGen (genStep m r) k
      = totalInGen m k + (if genKeyOf r = k then genScaledOf r else 0) := by
  have hfstp : ∀ kv ∈ m,
      ((fun x : String × AggregatedIngredient => x.1 == k) ∘ genBump r) kv
        = (fun x : String × AggregatedIngredient => x.1 == k) kv := by
    intro kv _
    simp [Function.comp, genBump_fst]
  by_cases hany : m.any (fun kv => kv.1 == mkKey r.ingredient_id r.unit)
  · simp only [genStep, hany, if_true, totalInGen]
    rw [List.filter_map, List.filter_congr hfstp, List.map_map]
    by_cases hk : genKeyOf r = k
    · obtain ⟨kv0, hkv0, hbeq⟩ := List.any_eq_true.mp hany
      have hkv0k : kv0.1 = k := by
        rw [← hk]
        simpa [genKeyOf] using eq_of_beq hbeq
      have hsingle : m.filter (fun x => x.1 == k) = [kv0] := by
        have hs := filter_key_singleton m kv0 hnodup hkv0
        rwa [hkv0k] at hs
      rw [if_pos hk, hsingle]
      simp only [List.map_cons, List.map_nil, List.sum_cons, List.sum_nil, Function.comp]
      rw [genBump_total_of_eq r kv0 (by rw [hkv0k, ← hk]; rfl)]
      ring
    · rw [if_neg hk, add_zero]
      have hmapc : ∀ kv ∈ m.filter (fun x : String × AggregatedIngredient => x.1 == k),
          ((fun x : String × AggregatedIngredient => x.2.total_quantity) ∘ genBump r) kv
            = (fun x : String × AggregatedIngredient => x.2.total_quantity) kv := by
        intro kv hkv
        have hkvk : kv.1 = k := by simpa using List.of_mem_filter hkv
        have hne : kv.1 ≠ mkKey r.ingredient_id r.unit := by
          rw [hkvk]
          intro he
          exact hk (by rw [genKeyOf, ← he])
        simp [Function.comp, genBump_of_ne r kv hne]
      exact congrArg List.sum (List.map_congr_left hmapc)
  · simp only [genStep]
    rw [if_neg (by simpa using hany)]
    simp only [totalInGen, List.filter_append, List.map_append, List.sum_append]
    by_cases hk : genKeyOf r = k
    · have hkk : mkKey r.ingredient_id r.unit = k := hk
      rw [if_pos hk]
      simp [List.filter_cons, hkk, genScaledOf]
    · have hkk : ¬ (mkKey r.ingredient_id r.unit = k) := hk
      rw [if_neg hk]
      simp [List.filter_cons, hkk]

lemma keyTotalGen_append (rows : List GenRow) (r : GenRow) (k : String) :
    keyTotalGen (rows ++ [r]) k
      = keyTotalGen rows k + (if genKeyOf r = k then genScaledOf r else 0) := by
  simp only [keyTotalGen, List.filter_append, List.map_append, List.sum_append]
  by_cases h : genKeyOf r = k
  · rw [if_pos h]
    simp [List.filter_cons, h]
  · rw [if_neg h]
    simp [List.filter_cons, h]

/-- Invariant of the aggregation loop: after folding `rows` into the map, the
keys are pairwise distinct and determined by the stored pair, the stored total
under each key is the sum of the scaled contributions of the rows carrying
that key, and every entry's display fields come from one of the rows. -/
structure GenInv (rows : List GenRow) (m : List (String × AggregatedIngredient)) : Prop where
  coher : ∀ kv ∈ m, mkKey kv.2.ingredient_id kv.2.unit = kv.1
  nodup : (m.map Prod.fst).Nodup
  total : ∀ k, totalInGen m k = keyTotalGen rows k
  origin : ∀ kv ∈ m, ∃ r ∈ rows, r.ingredient_id = kv.2.ingredient_id ∧
    r.unit = kv.2.unit ∧ r.ingredient_name = kv.2.name ∧ r.ingredient_category = kv.2.category

lemma genInv_step {rows : List GenRow} {m : List (String × AggregatedIngredient)}
    (h : GenInv rows m) (r : GenRow) : GenInv (rows ++ [r]) (genStep m r) := by
  refine ⟨genStep_coherent m r h.coher, genStep_nodup m r h.nodup, ?_, ?_⟩
  · intro k
    rw [totalInGen_genStep m r h.nodup k, h.total k, keyTotalGen_append]
  · intro kv hkv
    rcases genStep_origin m r kv hkv with ⟨kv0, hkv0, h1, h2, h3, h4⟩ | ⟨h1, h2, h3, h4⟩
    · obtain ⟨r0, hr0, g1, g2, g3, g4⟩ := h.origin kv0 hkv0
      exact ⟨r0, List.mem_append_left _ hr0,
        g1.trans h1, g2.trans h2, g3.trans h3, g4.trans h4⟩
    · exact ⟨r, List.mem_append_right _ (List.mem_singleton_self r), h1, h2, h3, h4⟩

lemma genInv_foldl : ∀ (rows processed : List GenRow)
    (m : List (String × AggregatedIngredient)), GenInv processed m →
    GenInv (processed ++ rows) (rows.foldl genStep m) := by
  intro rows
  induction rows with
  | nil => intro processed m h; simpa using h
  | cons r rows ih =>
    intro processed m h
    have hstep := genInv_step h r
    have hres := ih (processed ++ [r]) (genStep m r) hstep
    simpa [List.append_assoc] using hres

lemma genInv_aggregate (rows : List GenRow) : GenInv rows (aggregateGen rows) := by
  have hbase : GenInv [] [] := by
    refine ⟨by simp, by simp, ?_, by simp⟩
    intro k
    simp [totalInGen, keyTotalGen]
  simpa using genInv_foldl rows [] [] hbase

lemma keyTotalGen_mkKey (rows : List GenRow) (i : Nat) (u : String) :
    keyTotalGen rows (mkKey i u) = genTotalFor rows i u := by
  unfold keyTotalGen genTotalFor
  congr 2
  apply List.filter_congr
  intro r _
  rw [Bool.eq_iff_iff]
  simp only [beq_iff_eq, Bool.and_eq_true]
  constructor
  · intro he
    exact mkKey_inj he
  · rintro ⟨rfl, rfl⟩
    rfl

/-- Each entry of the finished aggregation map stores exactly the sum of
`quantity * servings` over the join rows with its (ingredient, unit) pair. -/
lemma aggregateGen_quantity (rows : List GenRow) (kv : String × AggregatedIngredient)
    (h : kv ∈ aggregateGen rows) :
    kv.2.total_quantity = genTotalFor rows kv.2.ingredient_id kv.2.unit := by
  have inv := genInv_aggregate rows
  have hk := inv.coher kv h
  have hsingle := filter_key_singleton _ kv inv.nodup h
  have hone : totalInGen (aggregateGen rows) kv.1 = kv.2.total_quantity := by
    rw [totalInGen, hsingle]
    simp
  rw [← hone, inv.total kv.1, ← hk, keyTotalGen_mkKey]

lemma mkGenItems_length (lid : Nat) : ∀ (sid : Nat) (aggs : List AggregatedIngredient),
    (mkGenItems lid sid aggs).length = aggs.length := by
  intro sid aggs
  induction aggs generalizing sid with
  | nil => rfl
  | cons a rest ih => simp [mkGenItems, ih]

lemma mem_mkGenItems (lid : Nat) : ∀ (sid : Nat) (aggs : List AggregatedIngredient)
    (item : ShoppingListItem), item ∈ mkGenItems lid sid aggs →
    ∃ a ∈ aggs, item.shopping_list_id = lid ∧ item.ingredient_id = some a.ingredient_id ∧
      item.name = a.name ∧ item.quantity = some a.total_quantity ∧
      item.unit = some a.unit ∧ item.category = a.category ∧
      item.is_purchased = false ∧ item.notes = none := by
  intro sid aggs
  induction aggs generalizing sid with
  | nil => intro item h; cases h
  | cons a rest ih =>
    intro item h
    rcases List.mem_cons.mp h with rfl | htl
    · exact ⟨a, List.mem_cons_self a rest, rfl, rfl, rfl, rfl, rfl, rfl, rfl, rfl⟩
    · obtain ⟨a0, ha0, hrest⟩ := ih (sid + 1) item htl
      exact ⟨a0, List.mem_cons_of_mem a ha0, hrest⟩

/-! ## The populate-path aggregation loop computes per-ingredient sums -/

/-- Sum of the stored totals under one ingredient id of the populate map. -/
def totalInPop (m : List (Nat × PopAgg)) (k : Nat) : ℚ :=
  ((m.filter (fun kv => kv.1 == k)).map (fun kv => kv.2.totalQuantity)).sum

lemma popBump_fst (r : PopRow) (kv : Nat × PopAgg) : (popBump r kv).1 = kv.1 := by
  by_cases h : kv.1 = r.ingredient_id <;> simp [popBump, h]

lemma popBump_of_ne (r : PopRow) (kv : Nat × PopAgg)
    (h : kv.1 ≠ r.ingredient_id) : popBump r kv = kv := by
  simp [popBump, h]

lemma popBump_total_of_eq (r : PopRow) (kv : Nat × PopAgg)
    (h : kv.1 = r.ingredient_id) :
    (popBump r kv).2.totalQuantity = kv.2.totalQuantity + popAdjustedOf r := by
  simp [popBump, h, popAdjustedOf]

lemma popStep_fst_any (m : List (Nat × PopAgg)) (r : PopRow)
    (h : m.any (fun kv => kv.1 == r.ingredient_id)) :
    (popStep m r).map Prod.fst = m.map Prod.fst := by
  simp only [popStep, h, if_true, List.map_map]
  apply List.map_congr_left
  intro kv _
  exact popBump_fst r kv

lemma popStep_fst_new (m : List (Nat × PopAgg)) (r : PopRow)
    (h : ¬ m.any (fun kv => kv.1 == r.ingredient_id)) :
    (popStep m r).map Prod.fst = m.map Prod.fst ++ [r.ingredient_id] := by
  simp only [popStep]
  rw [if_neg (by simpa using h)]
  simp

lemma popStep_nodup (m : List (Nat × PopAgg)) (r : PopRow)
    (h : (m.map Prod.fst).Nodup) : ((popStep m r).map Prod.fst).Nodup := by
  by_cases hany : m.any (fun kv => kv.1 == r.ingredient_id)
  · rw [popStep_fst_any m r hany]; exact h
  · rw [popStep_fst_new m r hany]
    simp only [List.any_eq_true, not_exists, not_and] at hany
    refine List.Nodup.append h (List.nodup_singleton _) ?_
    intro k hk1 hk2
    simp only [List.mem_singleton] at hk2
    obtain ⟨kv, hkv, rfl⟩ := List.mem_map.mp hk1
    exact absurd (by simpa using hk2) (by simpa using hany kv hkv)

lemma totalInPop_popStep (m : List (Nat × PopAgg)) (r : PopRow)
    (hnodup : (m.map Prod.fst).Nodup) (k : Nat) :
    totalInPop (popStep m r) k
      = totalInPop m k + (if r.ingredient_id = k then popAdjustedOf r else 0) := by
  have hfstp : ∀ kv ∈ m,
      ((fun x : Nat × PopAgg => x.1 == k) ∘ popBump r) kv
        = (fun x : Nat × PopAgg => x.1 == k) kv := by
    intro kv _
    simp [Function.comp, popBump_fst]
  by_cases hany : m.any (fun kv => kv.1 == r.ingredient_id)
  · simp only [popStep, hany, if_true, totalInPop]
    rw [List.filter_map, List.filter_congr hfstp, List.map_map]
    by_cases hk : r.ingredient_id = k
    · obtain ⟨kv0, hkv0, hbeq⟩ := List.any_eq_true.mp hany
      have hkv0k : kv0.1 = k := by rw [← hk]; exact eq_of_beq hbeq
      have hsingle : m.filter (fun x => x.1 == k) = [kv0] := by
        have hs := filter_key_singleton m kv0 hnodup hkv0
        rwa [hkv0k] at hs
      rw [if_pos hk, hsingle]
      simp only [List.map_cons, List.map_nil, List.sum_cons, List.sum_nil, Function.comp]
      rw [popBump_total_of_eq r kv0 (by rw [hkv0k, ← hk])]
      ring
    · rw [if_neg hk, add_zero]
      have hmapc : ∀ kv ∈ m.filter (fun x : Nat × PopAgg => x.1 == k),
          ((fun x : Nat × PopAgg => x.2.totalQuantity) ∘ popBump r) kv
            = (fun x : Nat × PopAgg => x.2.totalQuantity) kv := by
        intro kv hkv
        have hkvk : kv.1 = k := by simpa using List.of_mem_filter hkv
        have hne : kv.1 ≠ r.ingredient_id := by
          rw [hkvk]
          intro he
          exact hk he.symm
        simp [Function.comp, popBump_of_ne r kv hne]
      exact congrArg List.sum (List.map_congr_left hmapc)
  · simp only [popStep]
    rw [if_neg (by simpa using hany)]
    simp only [totalInPop, List.filter_append, List.map_append, List.sum_append]
    by_cases hk : r.ingredient_id = k
    · rw [if_pos hk]
      simp [List.filter_cons, hk, popAdjustedOf]
    · rw [if_neg hk]
      simp [List.filter_cons, hk]

lemma popTotalFor_append (rows : List PopRow) (r : PopRow) (k : Nat) :
    popTotalFor (rows ++ [r]) k
      = popTotalFor rows k + (if r.ingredient_id = k then popAdjustedOf r else 0) := by
  simp only [popTotalFor, List.filter_append, List.map_append, List.sum_append]
  by_cases h : r.ingredient_id = k
  · rw [if_pos h]
    simp [List.filter_cons, h]
  · rw [if_neg h]
    simp [List.filter_cons, h]

/-- Invariant of the populate aggregation loop. -/
structure PopInv (rows : List PopRow) (m : List (Nat × PopAgg)) : Prop where
  nodup : (m.map Prod.fst).Nodup
  total : ∀ k, totalInPop m k = popTotalFor rows k

lemma popInv_step {rows : List PopRow} {m : List (Nat × PopAgg)}
    (h : PopInv rows m) (r : PopRow) : PopInv (rows ++ [r]) (popStep m r) := by
  refine ⟨popStep_nodup m r h.nodup, ?_⟩
  intro k
  rw [totalInPop_popStep m r h.nodup k, h.total k, popTotalFor_append]

lemma popInv_foldl : ∀ (rows processed : List PopRow) (m : List (Nat × PopAgg)),
    PopInv processed m → PopInv (processed ++ rows) (rows.foldl popStep m) := by
  intro rows
  induction rows with
  | nil => intro processed m h; simpa using h
  | cons r rows ih =>
    intro processed m h
    have hres := ih (processed ++ [r]) (popStep m r) (popInv_step h r)
    simpa [List.append_assoc] using hres

lemma popInv_aggregate (rows : List PopRow) : PopInv rows (aggregatePop rows) := by
  have hbase : PopInv [] [] := by
    refine ⟨by simp, ?_⟩
    intro k
    simp [totalInPop, popTotalFor]
  simpa using popInv_foldl rows [] [] hbase

/-- Each entry of the finished populate map stores the sum of the adjusted
quantities of the join rows with its ingredient id — across every unit. -/
lemma aggregatePop_quantity (rows : List PopRow) (kv : Nat × PopAgg)
    (h : kv ∈ aggregatePop rows) :
    kv.2.totalQuantity = popTotalFor rows kv.1 := by
  have inv := popInv_aggregate rows
  have hsingle := filter_key_singleton _ kv inv.nodup h
  have hone : totalInPop (aggregatePop rows) kv.1 = kv.2.totalQuantity := by
    rw [totalInPop, hsingle]
    simp
  rw [← hone, inv.total kv.1]

lemma mkPopItems_length (lid : Nat) : ∀ (sid : Nat) (aggs : List (Nat × PopAgg)),
    (mkPopItems lid sid aggs).length = aggs.length := by
  intro sid aggs
  induction aggs generalizing sid with
  | nil => rfl
  | cons a rest ih =>
    obtain ⟨k, v⟩ := a
    simp [mkPopItems, ih]

lemma mem_mkPopItems (lid : Nat) : ∀ (sid : Nat) (aggs : List (Nat × PopAgg))
    (item : ShoppingListItem), item ∈ mkPopItems lid sid aggs →
    ∃ kv ∈ aggs, item.shopping_list_id = lid ∧ item.ingredient_id = some kv.1 ∧
      item.name = kv.2.name ∧ item.quantity = some (round2 kv.2.totalQuantity) ∧
      item.unit = some kv.2.unit ∧ item.category = kv.2.category ∧
      item.is_purchased = false ∧ item.notes = none := by
  intro sid aggs
  induction aggs generalizing sid with
  | nil => intro item h; cases h
  | cons a rest ih =>
    obtain ⟨k, v⟩ := a
    intro item h
    rcases List.mem_cons.mp h with rfl | htl
    · exact ⟨(k, v), List.mem_cons_self _ rest, rfl, rfl, rfl, rfl, rfl, rfl, rfl, rfl⟩
    · obtain ⟨a0, ha0, hrest⟩ := ih (sid + 1) item htl
      exact ⟨a0, List.mem_cons_of_mem _ ha0, hrest⟩

/-! ## Unfolding the handlers branch by branch -/

lemma generate_notFound (f : StoreFaults) (db : Db) (pid : Nat) (nm : String)
    (h : (db.mealPlans.filter (fun p => p.id == pid)).length = 0) :
    generateShoppingListFromMealPlan f pid nm db
      = (Except.error (DbError.notFound pid), db) := by
  simp [generateShoppingListFromMealPlan, h]

lemma generate_ok_shape (db : Db) (pid : Nat) (nm : String)
    (h : ¬ (db.mealPlans.filter (fun p => p.id == pid)).length = 0) :
    generateShoppingListFromMealPlan noFaults pid nm db
      = (Except.ok ⟨db.nextListId, nm, some pid⟩,
         { db with
           shoppingLists := db.shoppingLists ++ [⟨db.nextListId, nm, some pid⟩],
           nextListId := db.nextListId + 1,
           shoppingListItems := db.shoppingListItems ++
             mkGenItems db.nextListId db.nextItemId
               ((aggregateGen (genJoinRows db pid)).map Prod.snd),
           nextItemId := db.nextItemId +
             (mkGenItems db.nextListId db.nextItemId
               ((aggregateGen (genJoinRows db pid)).map Prod.snd)).length }) := by
  by_cases hagg : 0 < (aggregateGen (genJoinRows db pid)).length
  · simp [generateShoppingListFromMealPlan, noFaults, h, hagg]
  · have hnil : aggregateGen (genJoinRows db pid) = [] :=
      List.length_eq_zero.mp (by omega)
    simp [generateShoppingListFromMealPlan, noFaults, h, hnil, mkGenItems]

lemma generate_failItems (db : Db) (pid : Nat) (nm : String)
    (h : ¬ (db.mealPlans.filter (fun p => p.id == pid)).length = 0)
    (hagg : 0 < (aggregateGen (genJoinRows db pid)).length) :
    generateShoppingListFromMealPlan ⟨false, true⟩ pid nm db
      = (Except.error DbError.storeFailure,
         { db with
           shoppingLists := db.shoppingLists ++ [⟨db.nextListId, nm, some pid⟩],
           nextListId := db.nextListId + 1 }) := by
  simp [generateShoppingListFromMealPlan, h, hagg]

lemma populate_shape (lid pid : Nat) (db : Db) :
    populateShoppingListFromMealPlan lid pid db
      = { db with
          shoppingListItems := db.shoppingListItems ++
            mkPopItems lid db.nextItemId (aggregatePop (popJoinRows db pid)),
          nextItemId := db.nextItemId +
            (mkPopItems lid db.nextItemId (aggregatePop (popJoinRows db pid))).length } := by
  by_cases hagg : 0 < (aggregatePop (popJoinRows db pid)).length
  · simp [populateShoppingListFromMealPlan, hagg]
  · have hnil : aggregatePop (popJoinRows db pid) = [] :=
      List.length_eq_zero.mp (by omega)
    simp [populateShoppingListFromMealPlan, hnil, mkPopItems]

lemma createShoppingList_error (db : Db) (nm : String) (pid : Nat) (hpid : pid ≠ 0)
    (h : (db.mealPlanEntries.filter (fun e => e.meal_plan_id == pid)).length = 0) :
    createShoppingList ⟨nm, some pid⟩ db
      = (Except.error (DbError.notFoundOrEmpty pid), db) := by
  simp [createShoppingList, jsTruthyId, hpid, h]

lemma createShoppingList_ok_shape (db : Db) (nm : String) (pid : Nat) (hpid : pid ≠ 0)
    (h : ¬ (db.mealPlanEntries.filter (fun e => e.meal_plan_id == pid)).length = 0) :
    createShoppingList ⟨nm, some pid⟩ db
      = (Except.ok ⟨db.nextListId, nm, some pid⟩,
         populateShoppingListFromMealPlan db.nextListId pid
           { db with
             shoppingLists := db.shoppingLists ++ [⟨db.nextListId, nm, some pid⟩],
             nextListId := db.nextListId + 1 }) := by
  simp [createShoppingList, jsTruthyId, hpid, h]

/-- Inserting a shopping-list row touches none of the tables the populate join
reads. -/
lemma popJoinRows_insertList (db : Db) (sl : ShoppingList) (n pid : Nat) :
    popJoinRows { db with shoppingLists := db.shoppingLists ++ [sl], nextListId := n } pid
      = popJoinRows db pid := rfl

/-- Every generate-join row's ingredient id was matched against an existing
ingredient row by the inner join. -/
lemma genJoinRows_ingredient (db : Db) (pid : Nat) :
    ∀ r ∈ genJoinRows db pid, ∃ ing ∈ db.ingredients, ing.id = r.ingredient_id := by
  intro r hr
  simp only [genJoinRows, List.mem_flatMap, List.mem_map, List.mem_filter] at hr
  obtain ⟨e, _, ri, _, ing, ⟨hingmem, hingid⟩, heq⟩ := hr
  refine ⟨ing, hingmem, ?_⟩
  rw [← heq]
  simpa using hingid

/-! ## Concrete databases used as test inputs -/

/-- One plan scheduling 4 servings of a recipe that declares 4 base servings
and needs 2 cups of flour: the spec's multiplier is 4/4 = 1. -/
def dbBase4 : Db :=
  { ingredients := [⟨1, "Flour", some "Baking", "cup"⟩],
    recipes := [⟨1, some 4⟩],
    recipeIngredients := [⟨1, 1, 2, "cup"⟩],
    mealPlans := [⟨1, "Weekend Meals"⟩],
    mealPlanEntries := [⟨1, 1, 4⟩],
    shoppingLists := [], shoppingListItems := [],
    nextListId := 10, nextItemId := 100 }

/-- One plan scheduling 1 serving of a 1-serving recipe that needs 1/3 tsp of
salt: both paths' multiplier is 1, so only rounding separates them. -/
def dbThird : Db :=
  { ingredients := [⟨1, "Salt", none, "tsp"⟩],
    recipes := [⟨1, some 1⟩],
    recipeIngredients := [⟨1, 1, 1/3, "tsp"⟩],
    mealPlans := [⟨1, "Plan"⟩],
    mealPlanEntries := [⟨1, 1, 1⟩],
    shoppingLists := [], shoppingListItems := [],
    nextListId := 10, nextItemId := 100 }

/-- One ingredient used by two one-serving recipes in different units (1 cup
of milk and 4 tbsp of milk), both scheduled once in the same plan. -/
def dbMixedUnits : Db :=
  { ingredients := [⟨1, "Milk", some "Dairy", "cup"⟩],
    recipes := [⟨1, some 1⟩, ⟨2, some 1⟩],
    recipeIngredients := [⟨1, 1, 1, "cup"⟩, ⟨2, 1, 4, "tbsp"⟩],
    mealPlans := [⟨1, "Mixed Units Plan"⟩],
    mealPlanEntries := [⟨1, 1, 1⟩, ⟨1, 2, 1⟩],
    shoppingLists := [], shoppingListItems := [],
    nextListId := 10, nextItemId := 100 }

/-- A meal plan that exists but has no entries at all. -/
def dbEmptyPlan : Db :=
  { ingredients := [], recipes := [], recipeIngredients := [],
    mealPlans := [⟨1, "Empty Plan"⟩],
    mealPlanEntries := [],
    shoppingLists := [], shoppingListItems := [],
    nextListId := 10, nextItemId := 100 }

/-- A plan entry whose recipe line references ingredient 99, which does not
exist in the ingredient store. -/
def dbDangling : Db :=
  { ingredients := [],
    recipes := [⟨1, some 2⟩],
    recipeIngredients := [⟨1, 99, 3, "cup"⟩],
    mealPlans := [⟨1, "Plan"⟩],
    mealPlanEntries := [⟨1, 1, 2⟩],
    shoppingLists := [], shoppingListItems := [],
    nextListId := 10, nextItemId := 100 }

/-- A recipe with `servings = null` needing 1 tsp of salt, scheduled at 2
servings (spec.md testable property 6). -/
def dbNullServings : Db :=
  { ingredients := [⟨1, "Salt", none, "tsp"⟩],
    recipes := [⟨1, none⟩],
    recipeIngredients := [⟨1, 1, 1, "tsp"⟩],
    mealPlans := [⟨1, "Plan"⟩],
    mealPlanEntries := [⟨1, 1, 2⟩],
    shoppingLists := [], shoppingListItems := [],
    nextListId := 10, nextItemId := 100 }

/-- One stored shopping list with one stored item, for exercising the update
handler. -/
def dbUpd : Db :=
  { ingredients := [⟨1, "Flour", some "Baking", "cup"⟩],
    recipes := [], recipeIngredients := [], mealPlans := [], mealPlanEntries := [],
    shoppingLists := [⟨10, "List", none⟩],
    shoppingListItems := [⟨5, 10, some 1, "Flour", some 2, some "cup", some "Baking",
      false, some "note"⟩],
    nextListId := 11, nextItemId := 6 }

/-! ## Claim C1 -/

/-- C1, counterexample.  The claim says every generated item's quantity is
`scheduled_servings / effective_base_servings * quantity` summed per
ingredient+unit.  On `dbBase4` (base servings 4, scheduled 4) that sum is 2,
but the generate handler stores 2 * 4 = 8: it never divides by the base
serving count.  On `dbThird` both multipliers are 1 and the sum is 1/3, but
the list-creation population path stores the two-decimal rounding 33/100. -/
theorem c1_counterexample :
    ((generateShoppingListFromMealPlan noFaults 1 "Groceries" dbBase4).2.shoppingListItems.map
      (fun item => item.quantity)) = [some 8] ∧
    specTotalQuantity dbBase4 1 1 "cup" = 2 ∧ ((8 : ℚ) ≠ 2) ∧
    ((createShoppingList ⟨"Groceries", some 1⟩ dbThird).2.shoppingListItems.map
      (fun item => item.quantity)) = [some (33/100)] ∧
    specTotalQuantity dbThird 1 1 "tsp" = 1/3 ∧ ((33/100 : ℚ) ≠ 1/3) := by
  refine ⟨?_, ?_, by norm_num, ?_, ?_, by norm_num⟩
  · simp [generateShoppingListFromMealPlan, noFaults, dbBase4, genJoinRows, aggregateGen,
      genStep, genBump, mkGenItems, genScaledQuantity]
    norm_num
  · simp [specTotalQuantity, dbBase4, recipeServingsOf, effectiveBaseServings]
  · simp [createShoppingList, jsTruthyId, populateShoppingListFromMealPlan, dbThird,
      popJoinRows, aggregatePop, popStep, popBump, adjustedQuantity, servingMultiplier,
      jsOrOne, mkPopItems]
    norm_num [show round2 (1/3) = 33/100 by rw [round2]; norm_num [round_eq, Int.floor_eq_iff]]
  · simp [specTotalQuantity, dbThird, recipeServingsOf, effectiveBaseServings]

lemma createShoppingList_not_truthy (db : Db) (input : CreateShoppingListInput)
    (h : jsTruthyId input.meal_plan_id = false) :
    createShoppingList input db
      = (Except.ok ⟨db.nextListId, input.name, input.meal_plan_id⟩,
         { db with
           shoppingLists := db.shoppingLists ++
             [⟨db.nextListId, input.name, input.meal_plan_id⟩],
           nextListId := db.nextListId + 1 }) := by
  simp [createShoppingList, h]

/-- C1, amended.  Quantities produced by the direct generate path are the
per-(ingredient, unit) sums of `line.quantity * entry.scheduled_servings` over
the resolvable join rows — the raw scheduled servings are the multiplier, the
base serving count is not consulted.  Quantities produced by the list-creation
population path are the two-decimal rounding of the per-ingredient sums (over
every unit) of `line.quantity * entry.scheduled_servings / (base_servings or
1)`. -/
theorem c1_amended (db : Db) (pid : Nat) (nm : String) :
    (∀ item ∈ (generateShoppingListFromMealPlan noFaults pid nm db).2.shoppingListItems,
       item ∈ db.shoppingListItems ∨
       ∃ i u, item.ingredient_id = some i ∧ item.unit = some u ∧
         item.quantity = some (genTotalFor (genJoinRows db pid) i u)) ∧
    (∀ item ∈ (createShoppingList ⟨nm, some pid⟩ db).2.shoppingListItems,
       item ∈ db.shoppingListItems ∨
       ∃ i, item.ingredient_id = some i ∧
         item.quantity = some (round2 (popTotalFor (popJoinRows db pid) i))) := by
  constructor
  · intro item hitem
    by_cases hplan : (db.mealPlans.filter (fun p => p.id == pid)).length = 0
    · rw [generate_notFound noFaults db pid nm hplan] at hitem
      exact Or.inl hitem
    · rw [generate_ok_shape db pid nm hplan] at hitem
      rcases List.mem_append.mp hitem with hold | hnew
      · exact Or.inl hold
      · obtain ⟨a, ha, _, hid, _, hq, hu, _, _, _⟩ :=
          mem_mkGenItems db.nextListId db.nextItemId _ item hnew
        obtain ⟨kv, hkv, rfl⟩ := List.mem_map.mp ha
        refine Or.inr ⟨kv.2.ingredient_id, kv.2.unit, hid, hu, ?_⟩
        rw [hq, aggregateGen_quantity _ kv hkv]
  · intro item hitem
    by_cases hpid : pid = 0
    · subst hpid
      rw [createShoppingList_not_truthy db _ (by simp [jsTruthyId])] at hitem
      exact Or.inl hitem
    · by_cases hent : (db.mealPlanEntries.filter (fun e => e.meal_plan_id == pid)).length = 0
      · rw [createShoppingList_error db nm pid hpid hent] at hitem
        exact Or.inl hitem
      · rw [createShoppingList_ok_shape db nm pid hpid hent, populate_shape,
          popJoinRows_insertList] at hitem
        rcases List.mem_append.mp hitem with hold | hnew
        · exact Or.inl hold
        · obtain ⟨kv, hkv, _, hid, _, hq, _, _, _, _⟩ :=
            mem_mkPopItems db.nextListId _ _ item hnew
          refine Or.inr ⟨kv.1, hid, ?_⟩
          rw [hq, aggregatePop_quantity _ kv hkv]

/-- C1 witness: on `dbBase4` the single generated item carries quantity 8 —
the raw-servings sum for (flour, cup). -/
theorem c1_amended_witness :
    (⟨100, 10, some 1, "Flour", some 8, some "cup", some "Baking", false, none⟩
        : ShoppingListItem) ∈ dbBase4.shoppingListItems ∨
    ∃ i u, (some 1 : Option Nat) = some i ∧ (some "cup" : Option String) = some u ∧
      (some 8 : Option ℚ) = some (genTotalFor (genJoinRows dbBase4 1) i u) :=
  (c1_amended dbBase4 1 "Groceries").1
    ⟨100, 10, some 1, "Flour", some 8, some "cup", some "Baking", false, none⟩
    (by
      simp [generateShoppingListFromMealPlan, noFaults, dbBase4, genJoinRows, aggregateGen,
        genStep, genBump, mkGenItems, genScaledQuantity]
      norm_num)

/-! ## Claim C2 -/

/-- C2: the populate path violates unit-distinctness.  On `dbMixedUnits`
(1 cup of milk in one recipe, 4 tbsp of milk in another, both scheduled) the
list-creation population path merges the two units into a single item labelled
"cup" with quantity 1 + 4 = 5, while the direct generate path (and the
handler's own test) keeps two separate items.  The code contradicts the spec's
"must never be merged" invariant on the populate path. -/
theorem c2_populate_merges_units :
    ((createShoppingList ⟨"Mixed Units Shopping", some 1⟩ dbMixedUnits).2.shoppingListItems.map
      (fun item => (item.ingredient_id, item.unit, item.quantity)))
      = [(some 1, some "cup", some 5)] ∧
    ((generateShoppingListFromMealPlan noFaults 1 "Mixed Units Shopping"
        dbMixedUnits).2.shoppingListItems.map
      (fun item => (item.ingredient_id, item.unit, item.quantity)))
      = [(some 1, some "cup", some 1), (some 1, some "tbsp", some 4)] := by
  constructor
  · have h5 : round2 5 = 5 := by
      rw [round2]
      norm_num [round_eq, Int.floor_eq_iff]
    simp [createShoppingList, jsTruthyId, populateShoppingListFromMealPlan, dbMixedUnits,
      popJoinRows, aggregatePop, popStep, popBump, adjustedQuantity, servingMultiplier,
      jsOrOne, mkPopItems]
    norm_num
    exact h5
  · have hkeys : (mkKey 1 "cup" == mkKey 1 "tbsp") = false := by decide
    simp [generateShoppingListFromMealPlan, noFaults, dbMixedUnits, genJoinRows, aggregateGen,
      genStep, genBump, mkGenItems, genScaledQuantity, hkeys]

/-! ## Claim C3 -/

/-- C3, counterexample.  On `dbEmptyPlan` (the plan exists, zero entries) the
list-creation generation path does not succeed with an empty list: it throws
`not found or has no entries` and creates nothing. -/
theorem c3_counterexample :
    createShoppingList ⟨"Empty Shopping List", some 1⟩ dbEmptyPlan
      = (Except.error (DbError.notFoundOrEmpty 1), dbEmptyPlan) := by
  simp [createShoppingList, jsTruthyId, dbEmptyPlan]

/-- C3, amended.  For an existing plan with zero entries, the direct
generate entry point succeeds and creates a list with zero items, but
creating a shopping list against that plan id fails with the
not-found-or-has-no-entries error and creates nothing. -/
theorem c3_amended (db : Db) (pid : Nat) (nm : String)
    (hplan : ¬ (db.mealPlans.filter (fun p => p.id == pid)).length = 0)
    (hent : db.mealPlanEntries.filter (fun e => e.meal_plan_id == pid) = []) :
    (generateShoppingListFromMealPlan noFaults pid nm db).1
        = Except.ok ⟨db.nextListId, nm, some pid⟩ ∧
    (generateShoppingListFromMealPlan noFaults pid nm db).2.shoppingLists
        = db.shoppingLists ++ [⟨db.nextListId, nm, some pid⟩] ∧
    (generateShoppingListFromMealPlan noFaults pid nm db).2.shoppingListItems
        = db.shoppingListItems ∧
    (pid ≠ 0 → createShoppingList ⟨nm, some pid⟩ db
        = (Except.error (DbError.notFoundOrEmpty pid), db)) := by
  have hjoin : genJoinRows db pid = [] := by
    simp [genJoinRows, hent]
  rw [generate_ok_shape db pid nm hplan]
  refine ⟨rfl, rfl, ?_, ?_⟩
  · simp [hjoin, aggregateGen, mkGenItems]
  · intro hpid
    exact createShoppingList_error db nm pid hpid (by simp [hent])

/-- C3 witness: on `dbEmptyPlan` generation yields the empty list 10 while
creation against the plan errors. -/
theorem c3_amended_witness :
    (¬ (dbEmptyPlan.mealPlans.filter (fun p => p.id == 1)).length = 0) ∧
    ((generateShoppingListFromMealPlan noFaults 1 "Empty Shopping List" dbEmptyPlan).1
        = Except.ok ⟨10, "Empty Shopping List", some 1⟩ ∧
     (generateShoppingListFromMealPlan noFaults 1 "Empty Shopping List" dbEmptyPlan).2.shoppingLists
        = dbEmptyPlan.shoppingLists ++ [⟨10, "Empty Shopping List", some 1⟩] ∧
     (generateShoppingListFromMealPlan noFaults 1 "Empty Shopping List" dbEmptyPlan).2.shoppingListItems
        = dbEmptyPlan.shoppingListItems ∧
     ((1 : Nat) ≠ 0 → createShoppingList ⟨"Empty Shopping List", some 1⟩ dbEmptyPlan
        = (Except.error (DbError.notFoundOrEmpty 1), dbEmptyPlan))) :=
  ⟨by decide, c3_amended dbEmptyPlan 1 "Empty Shopping List" (by decide) (by decide)⟩

/-! ## Claim C4 -/

/-- C4: for a meal-plan id matching no stored plan, the generate handler
throws `not found` before any insert, under any store-fault configuration:
the returned state is exactly the input state, so no ShoppingList record and
no items were created. -/
theorem c4_nonexistent_plan (f : StoreFaults) (db : Db) (pid : Nat) (nm : String)
    (h : (db.mealPlans.filter (fun p => p.id == pid)).length = 0) :
    generateShoppingListFromMealPlan f pid nm db
      = (Except.error (DbError.notFound pid), db) :=
  generate_notFound f db pid nm h

/-- C4 witness: plan id 99999 does not exist in `dbEmptyPlan`. -/
theorem c4_nonexistent_plan_witness :
    ((dbEmptyPlan.mealPlans.filter (fun p => p.id == 99999)).length = 0) ∧
    generateShoppingListFromMealPlan noFaults 99999 "Invalid Plan Shopping" dbEmptyPlan
      = (Except.error (DbError.notFound 99999), dbEmptyPlan) :=
  ⟨by decide, c4_nonexistent_plan noFaults dbEmptyPlan 99999 "Invalid Plan Shopping" (by decide)⟩

/-! ## Claim C5 -/

/-- C5, counterexample.  On `dbDangling` the plan's only entry references a
recipe line whose ingredient does not exist; generation does not surface any
error — it succeeds and silently produces a list with no items. -/
theorem c5_counterexample :
    (generateShoppingListFromMealPlan noFaults 1 "List" dbDangling).1
        = Except.ok ⟨10, "List", some 1⟩ ∧
    (generateShoppingListFromMealPlan noFaults 1 "List" dbDangling).2.shoppingListItems
        = [] := by
  constructor
  · simp [generateShoppingListFromMealPlan, noFaults, dbDangling, genJoinRows, aggregateGen]
  · simp [generateShoppingListFromMealPlan, noFaults, dbDangling, genJoinRows, aggregateGen,
      mkGenItems]

/-- C5, amended.  When the plan exists, generation always succeeds — there is
no InvalidReference error anywhere in the handler — and every produced item's
ingredient id resolves in the ingredient store, so entries whose recipe or
ingredient cannot be resolved are silently dropped by the inner joins rather
than reported. -/
theorem c5_amended (db : Db) (pid : Nat) (nm : String)
    (hplan : ¬ (db.mealPlans.filter (fun p => p.id == pid)).length = 0) :
    (generateShoppingListFromMealPlan noFaults pid nm db).1
        = Except.ok ⟨db.nextListId, nm, some pid⟩ ∧
    (∀ item ∈ (generateShoppingListFromMealPlan noFaults pid nm db).2.shoppingListItems,
       item ∈ db.shoppingListItems ∨ ∃ ing ∈ db.ingredients, item.ingredient_id = some ing.id) := by
  rw [generate_ok_shape db pid nm hplan]
  refine ⟨rfl, ?_⟩
  intro item hitem
  rcases List.mem_append.mp hitem with hold | hnew
  · exact Or.inl hold
  · obtain ⟨a, ha, _, hid, _, _, _, _, _, _⟩ :=
      mem_mkGenItems db.nextListId db.nextItemId _ item hnew
    obtain ⟨kv, hkv, rfl⟩ := List.mem_map.mp ha
    obtain ⟨r, hr, hri, _, _, _⟩ := (genInv_aggregate _).origin kv hkv
    obtain ⟨ing, hing, hingid⟩ := genJoinRows_ingredient db pid r hr
    exact Or.inr ⟨ing, hing, by rw [hid, ← hri, hingid]⟩

/-- C5 witness: on `dbDangling` generation succeeds and each produced item
(there are none) resolves. -/
theorem c5_amended_witness :
    (¬ (dbDangling.mealPlans.filter (fun p => p.id == 1)).length = 0) ∧
    ((generateShoppingListFromMealPlan noFaults 1 "List" dbDangling).1
        = Except.ok ⟨10, "List", some 1⟩ ∧
     (∀ item ∈ (generateShoppingListFromMealPlan noFaults 1 "List" dbDangling).2.shoppingListItems,
        item ∈ dbDangling.shoppingListItems ∨
          ∃ ing ∈ dbDangling.ingredients, item.ingredient_id = some ing.id)) :=
  ⟨by decide, c5_amended dbDangling 1 "List" (by decide)⟩

/-! ## Claim C6 -/

/-- C6, counterexample.  The two inserts are separate statements with no
transaction: when the item insert fails after the list insert succeeded, the
failing execution leaves list 10 visible in the store with none of its 1
aggregated item. -/
theorem c6_counterexample :
    (generateShoppingListFromMealPlan ⟨false, true⟩ 1 "Groceries" dbBase4).1
        = Except.error DbError.storeFailure ∧
    (⟨10, "Groceries", some 1⟩ : ShoppingList)
        ∈ (generateShoppingListFromMealPlan ⟨false, true⟩ 1 "Groceries" dbBase4).2.shoppingLists ∧
    (generateShoppingListFromMealPlan ⟨false, true⟩ 1 "Groceries" dbBase4).2.shoppingListItems
        = [] ∧
    (aggregateGen (genJoinRows dbBase4 1)).length = 1 := by
  refine ⟨?_, ?_, ?_, ?_⟩ <;>
    simp [generateShoppingListFromMealPlan, dbBase4, genJoinRows, aggregateGen, genStep,
      genBump, mkGenItems]

/-- C6, amended.  When no insert fails, the created list is stored together
with exactly one item per aggregated group; but when the item insert fails
after the list insert, the handler leaves the list record in the store with
zero of its items — there is no rollback. -/
theorem c6_amended (db : Db) (pid : Nat) (nm : String)
    (hplan : ¬ (db.mealPlans.filter (fun p => p.id == pid)).length = 0)
    (hwf : ∀ item ∈ db.shoppingListItems, item.shopping_list_id < db.nextListId) :
    ((generateShoppingListFromMealPlan noFaults pid nm db).1
        = Except.ok ⟨db.nextListId, nm, some pid⟩ ∧
     (⟨db.nextListId, nm, some pid⟩ : ShoppingList)
        ∈ (generateShoppingListFromMealPlan noFaults pid nm db).2.shoppingLists ∧
     ((generateShoppingListFromMealPlan noFaults pid nm db).2.shoppingListItems.filter
        (fun i => i.shopping_list_id == db.nextListId)).length
        = (aggregateGen (genJoinRows db pid)).length) ∧
    (0 < (aggregateGen (genJoinRows db pid)).length →
     (generateShoppingListFromMealPlan ⟨false, true⟩ pid nm db).1
        = Except.error DbError.storeFailure ∧
     (⟨db.nextListId, nm, some pid⟩ : ShoppingList)
        ∈ (generateShoppingListFromMealPlan ⟨false, true⟩ pid nm db).2.shoppingLists ∧
     (generateShoppingListFromMealPlan ⟨false, true⟩ pid nm db).2.shoppingListItems.filter
        (fun i => i.shopping_list_id == db.nextListId) = []) := by
  have holdnil : db.shoppingListItems.filter (fun i => i.shopping_list_id == db.nextListId) = [] := by
    refine List.filter_eq_nil_iff.mpr ?_
    intro i hi hbeq
    exact absurd (eq_of_beq hbeq) (Nat.ne_of_lt (hwf i hi))
  constructor
  · rw [generate_ok_shape db pid nm hplan]
    refine ⟨rfl, List.mem_append_right _ (List.mem_singleton_self _), ?_⟩
    have hnewfull : (mkGenItems db.nextListId db.nextItemId
        ((aggregateGen (genJoinRows db pid)).map Prod.snd)).filter
          (fun i => i.shopping_list_id == db.nextListId)
        = mkGenItems db.nextListId db.nextItemId
            ((aggregateGen (genJoinRows db pid)).map Prod.snd) := by
      refine List.filter_eq_self.mpr ?_
      intro item hitem
      obtain ⟨a, _, hl, _⟩ := mem_mkGenItems db.nextListId db.nextItemId _ item hitem
      simp [hl]
    rw [List.filter_append, holdnil, hnewfull, List.nil_append, mkGenItems_length,
      List.length_map]
  · intro hagg
    rw [generate_failItems db pid nm hplan hagg]
    exact ⟨rfl, List.mem_append_right _ (List.mem_singleton_self _), holdnil⟩

/-- C6 witness: instantiated on `dbBase4`, where the item insert failing
leaves list 10 without its single item. -/
theorem c6_amended_witness :
    (generateShoppingListFromMealPlan ⟨false, true⟩ 1 "Groceries" dbBase4).1
        = Except.error DbError.storeFailure ∧
    (⟨dbBase4.nextListId, "Groceries", some 1⟩ : ShoppingList)
        ∈ (generateShoppingListFromMealPlan ⟨false, true⟩ 1 "Groceries" dbBase4).2.shoppingLists ∧
    (generateShoppingListFromMealPlan ⟨false, true⟩ 1 "Groceries" dbBase4).2.shoppingListItems.filter
        (fun i => i.shopping_list_id == dbBase4.nextListId) = [] :=
  (c6_amended dbBase4 1 "Groceries" (by decide) (by decide)).2 (by decide)

/-! ## Claim C7 -/

/-- C7: on `dbThird` (multiplier 1, line quantity 1/3 tsp) the list-creation
population path stores the two-decimal rounding 33/100 while the direct
generate path stores the unrounded 1/3 for the same plan — the stored values
differ, and the populate value is exactly the rounding of the generate one. -/
theorem c7_rounding_divergence :
    ((createShoppingList ⟨"List", some 1⟩ dbThird).2.shoppingListItems.map
        (fun i => i.quantity)) = [some (33/100)] ∧
    ((generateShoppingListFromMealPlan noFaults 1 "List" dbThird).2.shoppingListItems.map
        (fun i => i.quantity)) = [some (1/3)] ∧
    round2 (1/3) = 33/100 ∧ ((1/3 : ℚ) ≠ 33/100) := by
  refine ⟨?_, ?_, ?_, by norm_num⟩
  · simp [createShoppingList, jsTruthyId, populateShoppingListFromMealPlan, dbThird,
      popJoinRows, aggregatePop, popStep, popBump, adjustedQuantity, servingMultiplier,
      jsOrOne, mkPopItems]
    norm_num [show round2 (1/3) = 33/100 by rw [round2]; norm_num [round_eq, Int.floor_eq_iff]]
  · simp [generateShoppingListFromMealPlan, noFaults, dbThird, genJoinRows, aggregateGen,
      genStep, genBump, mkGenItems, genScaledQuantity]
  · rw [round2]
    norm_num [round_eq, Int.floor_eq_iff]

/-! ## Claim C8 -/

lemma generate_items_cases (f : StoreFaults) (db : Db) (pid : Nat) (nm : String) :
    (generateShoppingListFromMealPlan f pid nm db).2.shoppingListItems
        = db.shoppingListItems ∨
    (generateShoppingListFromMealPlan f pid nm db).2.shoppingListItems
        = db.shoppingListItems ++ mkGenItems db.nextListId db.nextItemId
            ((aggregateGen (genJoinRows db pid)).map Prod.snd) := by
  by_cases hplan : (db.mealPlans.filter (fun p => p.id == pid)).length = 0
  · rw [generate_notFound f db pid nm hplan]
    exact Or.inl rfl
  · obtain ⟨f1, f2⟩ := f
    cases f1
    · cases f2
      · rw [show StoreFaults.mk false false = noFaults from rfl,
          generate_ok_shape db pid nm hplan]
        exact Or.inr rfl
      · by_cases hagg : 0 < (aggregateGen (genJoinRows db pid)).length
        · rw [generate_failItems db pid nm hplan hagg]
          exact Or.inl rfl
        · have hnil : aggregateGen (genJoinRows db pid) = [] :=
            List.length_eq_zero.mp (by omega)
          left
          simp [generateShoppingListFromMealPlan, hplan, hnil]
    · left
      simp [generateShoppingListFromMealPlan, hplan]

lemma create_items_cases (input : CreateShoppingListInput) (db : Db) :
    (createShoppingList input db).2.shoppingListItems = db.shoppingListItems ∨
    ∃ rows, (createShoppingList input db).2.shoppingListItems
        = db.shoppingListItems ++ mkPopItems db.nextListId db.nextItemId (aggregatePop rows) := by
  by_cases ht : jsTruthyId input.meal_plan_id
  · by_cases hent : (db.mealPlanEntries.filter
        (fun e => e.meal_plan_id == input.meal_plan_id.getD 0)).length = 0
    · left
      simp [createShoppingList, ht, hent]
    · right
      refine ⟨popJoinRows db (input.meal_plan_id.getD 0), ?_⟩
      simp only [createShoppingList, ht, if_true, hent, if_false, populate_shape,
        popJoinRows_insertList]
  · left
    simp [createShoppingList, ht]

/-- C8: every item row written by any of the three creation paths has
`is_purchased = false`, whatever the inputs; the item returned by
`createShoppingListItem` also has it false. -/
theorem c8_items_never_purchased (f : StoreFaults) (db : Db) (pid : Nat) (nm : String)
    (inputL : CreateShoppingListInput) (inputI : CreateShoppingListItemInput) :
    (∀ item ∈ (generateShoppingListFromMealPlan f pid nm db).2.shoppingListItems,
       item ∈ db.shoppingListItems ∨ item.is_purchased = false) ∧
    (∀ item ∈ (createShoppingList inputL db).2.shoppingListItems,
       item ∈ db.shoppingListItems ∨ item.is_purchased = false) ∧
    (∀ item ∈ (createShoppingListItem inputI db).2.shoppingListItems,
       item ∈ db.shoppingListItems ∨ item.is_purchased = false) ∧
    (∀ item res, createShoppingListItem inputI db = (Except.ok item, res) →
       item.is_purchased = false) := by
  refine ⟨?_, ?_, ?_, ?_⟩
  · intro item hitem
    rcases generate_items_cases f db pid nm with h | h
    · rw [h] at hitem
      exact Or.inl hitem
    · rw [h] at hitem
      rcases List.mem_append.mp hitem with hold | hnew
      · exact Or.inl hold
      · obtain ⟨a, _, _, _, _, _, _, _, hp, _⟩ :=
          mem_mkGenItems db.nextListId db.nextItemId _ item hnew
        exact Or.inr hp
  · intro item hitem
    rcases create_items_cases inputL db with h | ⟨rows, h⟩
    · rw [h] at hitem
      exact Or.inl hitem
    · rw [h] at hitem
      rcases List.mem_append.mp hitem with hold | hnew
      · exact Or.inl hold
      · obtain ⟨kv, _, _, _, _, _, _, _, hp, _⟩ :=
          mem_mkPopItems db.nextListId db.nextItemId _ item hnew
        exact Or.inr hp
  · intro item hitem
    by_cases h1 : (db.shoppingLists.filter (fun l => l.id == inputI.shopping_list_id)).length = 0
    · simp only [createShoppingListItem, h1, if_true] at hitem
      exact Or.inl hitem
    · cases hing : inputI.ingredient_id with
      | some ingId =>
        by_cases h2 : (db.ingredients.filter (fun ing => ing.id == ingId)).length = 0
        · simp only [createShoppingListItem, h1, if_false, hing, h2, if_true] at hitem
          exact Or.inl hitem
        · simp only [createShoppingListItem, h1, if_false, hing, h2] at hitem
          rcases List.mem_append.mp hitem with hold | hnew
          · exact Or.inl hold
          · rw [List.mem_singleton.mp hnew]
            exact Or.inr rfl
      | none =>
        simp only [createShoppingListItem, h1, if_false, hing] at hitem
        rcases List.mem_append.mp hitem with hold | hnew
        · exact Or.inl hold
        · rw [List.mem_singleton.mp hnew]
          exact Or.inr rfl
  · intro item res heq
    by_cases h1 : (db.shoppingLists.filter (fun l => l.id == inputI.shopping_list_id)).length = 0
    · simp [createShoppingListItem, h1] at heq
    · cases hing : inputI.ingredient_id with
      | some ingId =>
        by_cases h2 : (db.ingredients.filter (fun ing => ing.id == ingId)).length = 0
        · simp [createShoppingListItem, h1, hing, h2] at heq
        · simp only [createShoppingListItem, h1, if_false, hing, h2, Prod.mk.injEq] at heq
          obtain ⟨hok, -⟩ := heq
          rw [← Except.ok.inj hok]
      | none =>
        simp only [createShoppingListItem, h1, if_false, hing, Prod.mk.injEq] at heq
        obtain ⟨hok, -⟩ := heq
        rw [← Except.ok.inj hok]

/-- C8 witness: instantiated on `dbBase4` and a manual item input. -/
theorem c8_items_never_purchased_witness :
    ∀ item ∈ (generateShoppingListFromMealPlan noFaults 1 "Groceries"
        dbBase4).2.shoppingListItems,
      item ∈ dbBase4.shoppingListItems ∨ item.is_purchased = false :=
  (c8_items_never_purchased noFaults dbBase4 1 "Groceries" ⟨"Manual", none⟩
    ⟨10, none, "Custom", none, none, none, none⟩).1

/-! ## Claim C9 -/

/-- C9: with a null base serving count both scaling rules multiply the line
quantity by exactly the scheduled servings N — the populate path because
`null || 1` is 1, the generate path because its multiplier is always the raw
servings; on `dbNullServings` (1 tsp salt, 2 scheduled servings) both paths
store 2 tsp. -/
theorem c9_null_base_servings (es : Int) (q : ℚ) :
    servingMultiplier es none = (es : ℚ) ∧
    adjustedQuantity q es none = q * (es : ℚ) ∧
    genScaledQuantity q es = q * (es : ℚ) ∧
    ((generateShoppingListFromMealPlan noFaults 1 "List" dbNullServings).2.shoppingListItems.map
        (fun i => i.quantity)) = [some 2] ∧
    ((createShoppingList ⟨"List", some 1⟩ dbNullServings).2.shoppingListItems.map
        (fun i => i.quantity)) = [some 2] := by
  refine ⟨?_, ?_, rfl, ?_, ?_⟩
  · simp [servingMultiplier, jsOrOne]
  · simp [adjustedQuantity, servingMultiplier, jsOrOne]
  · simp [generateShoppingListFromMealPlan, noFaults, dbNullServings, genJoinRows,
      aggregateGen, genStep, genBump, mkGenItems, genScaledQuantity]
  · simp [createShoppingList, jsTruthyId, populateShoppingListFromMealPlan, dbNullServings,
      popJoinRows, aggregatePop, popStep, popBump, adjustedQuantity, servingMultiplier,
      jsOrOne, mkPopItems]
    norm_num [show round2 2 = 2 by rw [round2]; norm_num [round_eq, Int.floor_eq_iff]]

/-! ## Claim C10 -/

lemma updateShoppingListItem_noValues (input : UpdateShoppingListItemInput) (db : Db)
    (h : hasUpdateValues input = false) :
    updateShoppingListItem input db = (Except.error DbError.noValuesToSet, db) := by
  simp [updateShoppingListItem, h]

lemma updateShoppingListItem_snd (input : UpdateShoppingListItemInput) (db : Db)
    (h : hasUpdateValues input = true) :
    (updateShoppingListItem input db).2
      = { db with shoppingListItems := db.shoppingListItems.map (updItem input) } := by
  unfold updateShoppingListItem
  rw [if_pos h]
  cases hf : (db.shoppingListItems.map (updItem input)).filter (fun i => i.id == input.id) <;>
    simp [hf]

/-- An absent-fields input leaves every field of every row as it was, because
each `getD` falls back to the stored value. -/
lemma updItem_of_noValues (input : UpdateShoppingListItemInput)
    (hp : input.is_purchased = none) (hq : input.quantity = none)
    (hn : input.notes = none) (i : ShoppingListItem) : updItem input i = i := by
  rw [updItem, applyItemUpdate, hp, hq, hn]
  split <;> rfl

/-- C10, counterexample.  The input `{ id: 77 }` is valid (all three optional
fields absent) and no item of `dbUpd` has id 77, so the claim requires the
call to return `null` with no change; the handler instead passes the empty
`updateData` to drizzle's `.set`, which throws `No values to set`. -/
theorem c10_counterexample :
    updateShoppingListItem ⟨77, none, none, none⟩ dbUpd
      = (Except.error DbError.noValuesToSet, dbUpd) ∧
    dbUpd.shoppingListItems.filter (fun i => i.id == 77) = [] := by
  constructor
  · simp [updateShoppingListItem, hasUpdateValues]
  · decide

/-- C10, amended.  Whatever the input, no table other than the items and no
column outside `is_purchased`, `quantity`, `notes` changes: each stored row
keeps its identity, list link, ingredient link, name, unit and category, a
row whose id differs from the input's is fully unchanged, and on the matching
row each of the three fields takes the input value when present and keeps the
stored value when absent.  When at least one of the three fields is present
and no row has the requested id, the call returns `null` and the state is
unchanged.  When all three fields are absent, the call instead fails with the
data layer's `No values to set` error and the state is unchanged. -/
theorem c10_update_frame (input : UpdateShoppingListItemInput) (db : Db) :
    ((updateShoppingListItem input db).2.ingredients = db.ingredients ∧
     (updateShoppingListItem input db).2.recipes = db.recipes ∧
     (updateShoppingListItem input db).2.recipeIngredients = db.recipeIngredients ∧
     (updateShoppingListItem input db).2.mealPlans = db.mealPlans ∧
     (updateShoppingListItem input db).2.mealPlanEntries = db.mealPlanEntries ∧
     (updateShoppingListItem input db).2.shoppingLists = db.shoppingLists ∧
     (updateShoppingListItem input db).2.nextListId = db.nextListId ∧
     (updateShoppingListItem input db).2.nextItemId = db.nextItemId) ∧
    List.Forall₂ (fun old new : ShoppingListItem =>
        new.id = old.id ∧ new.shopping_list_id = old.shopping_list_id ∧
        new.ingredient_id = old.ingredient_id ∧ new.name = old.name ∧
        new.unit = old.unit ∧ new.category = old.category ∧
        (old.id ≠ input.id → new = old) ∧
        (old.id = input.id →
          new.is_purchased = input.is_purchased.getD old.is_purchased ∧
          new.quantity = input.quantity.getD old.quantity ∧
          new.notes = input.notes.getD old.notes))
      db.shoppingListItems (updateShoppingListItem input db).2.shoppingListItems ∧
    (hasUpdateValues input = true →
      (∀ i ∈ db.shoppingListItems, i.id ≠ input.id) →
      (updateShoppingListItem input db).1 = Except.ok none ∧
      (updateShoppingListItem input db).2 = db) ∧
    (hasUpdateValues input = false →
      updateShoppingListItem input db = (Except.error DbError.noValuesToSet, db)) := by
  have hpointwise : ∀ i ∈ db.shoppingListItems,
      (updItem input i).id = i.id ∧
      (updItem input i).shopping_list_id = i.shopping_list_id ∧
      (updItem input i).ingredient_id = i.ingredient_id ∧
      (updItem input i).name = i.name ∧
      (updItem input i).unit = i.unit ∧
      (updItem input i).category = i.category ∧
      (i.id ≠ input.id → updItem input i = i) ∧
      (i.id = input.id →
        (updItem input i).is_purchased = input.is_purchased.getD i.is_purchased ∧
        (updItem input i).quantity = input.quantity.getD i.quantity ∧
        (updItem input i).notes = input.notes.getD i.notes) := by
    intro i _
    by_cases hid : i.id = input.id
    · rw [updItem, if_pos (by simpa using hid)]
      refine ⟨rfl, rfl, rfl, rfl, rfl, rfl, fun hne => absurd hid hne, fun _ => ⟨rfl, rfl, rfl⟩⟩
    · rw [updItem, if_neg (by simpa using hid)]
      exact ⟨rfl, rfl, rfl, rfl, rfl, rfl, fun _ => rfl, fun he => absurd he hid⟩
  by_cases hv : hasUpdateValues input = true
  · refine ⟨?_, ?_, ?_, ?_⟩
    · rw [updateShoppingListItem_snd input db hv]
      exact ⟨rfl, rfl, rfl, rfl, rfl, rfl, rfl, rfl⟩
    · rw [updateShoppingListItem_snd input db hv]
      show List.Forall₂ _ db.shoppingListItems (db.shoppingListItems.map _)
      rw [List.forall₂_map_right_iff]
      rw [List.forall₂_same]
      exact hpointwise
    · intro _ hall
      have hmap : db.shoppingListItems.map (updItem input) = db.shoppingListItems := by
        have hcong : ∀ i ∈ db.shoppingListItems, updItem input i = id i := by
          intro i hi
          exact (hpointwise i hi).2.2.2.2.2.2.1 (hall i hi)
        rw [List.map_congr_left hcong, List.map_id]
      have hfilter : (db.shoppingListItems.map (updItem input)).filter
          (fun i => i.id == input.id) = [] := by
        rw [hmap]
        refine List.filter_eq_nil_iff.mpr ?_
        intro i hi hbeq
        exact hall i hi (eq_of_beq hbeq)
      constructor
      · unfold updateShoppingListItem
        rw [if_pos hv]
        simp only [hfilter]
      · rw [updateShoppingListItem_snd input db hv, hmap]
    · intro hfalse
      rw [hv] at hfalse
      cases hfalse
  · have hv0 : hasUpdateValues input = false := by
      cases h : hasUpdateValues input
      · rfl
      · exact absurd h hv
    have hp : input.is_purchased = none := by
      cases h : input.is_purchased
      · rfl
      · rw [hasUpdateValues, h] at hv0
        simp at hv0
    have hq : input.quantity = none := by
      cases h : input.quantity
      · rfl
      · rw [hasUpdateValues, h] at hv0
        simp at hv0
    have hn : input.notes = none := by
      cases h : input.notes
      · rfl
      · rw [hasUpdateValues, h] at hv0
        simp at hv0
    rw [updateShoppingListItem_noValues input db hv0]
    refine ⟨⟨rfl, rfl, rfl, rfl, rfl, rfl, rfl, rfl⟩, ?_, ?_, fun _ => rfl⟩
    · show List.Forall₂ _ db.shoppingListItems db.shoppingListItems
      rw [List.forall₂_same]
      intro i hi
      have := hpointwise i hi
      rwa [updItem_of_noValues input hp hq hn i] at this
    · intro htrue
      rw [hv0] at htrue
      cases htrue

/-- C10 witness: with `is_purchased` present and an id no item has, the call
returns `null` and leaves the database unchanged. -/
theorem c10_update_frame_witness :
    (∀ i ∈ dbUpd.shoppingListItems, i.id ≠ (77 : Nat)) ∧
    ((updateShoppingListItem ⟨77, some true, none, none⟩ dbUpd).1 = Except.ok none ∧
     (updateShoppingListItem ⟨77, some true, none, none⟩ dbUpd).2 = dbUpd) :=
  ⟨by decide,
   (c10_update_frame ⟨77, some true, none, none⟩ dbUpd).2.2.1 (by decide) (by decide)⟩

end KitchenSync
